import Mathlib

/-!
Verification of the Formic task-workflow orchestration core against its
specification.  The repository ships only external test clients
(test_api.py, test_formic.py, ui_test.py, skill_test.py,
test-workspace-ui.py); the orchestration engine they exercise (the
Node server started as dist/server/index.js) is not part of the source
tree.  Every definition of the engine below is therefore modelled from
the specification, as its doc comment records.
-/

namespace Formic

/-- Modelled from the spec: task lifecycle statuses of the absent
TaskStateMachine (spec section 4.1). -/
inductive Status
  | todo
  | briefing
  | planning
  | running
  | review
  | done
  | failed
  | cancelled
deriving DecidableEq, Fintype

/-- Modelled from the spec: terminal statuses of the absent
TaskStateMachine (spec section 4.1): done, failed, cancelled. -/
def Status.isTerminal : Status → Bool
  | .done => true
  | .failed => true
  | .cancelled => true
  | _ => false

/-- Modelled from the spec: the in-flight statuses, those a task holds
while one of the three stages executes (spec sections 4.4 and 4.1). -/
def Status.inFlight : Status → Bool
  | .briefing => true
  | .planning => true
  | .running => true
  | _ => false

/-- Modelled from the spec: the legal transition table of the absent
TaskStateMachine (spec section 4.1): pipeline progression
todo to briefing to planning to running to review, review to done on
external approval, and any non-terminal state to cancelled or failed. -/
def legalTransition : Status → Status → Bool
  | .todo, .briefing => true
  | .briefing, .planning => true
  | .planning, .running => true
  | .running, .review => true
  | .review, .done => true
  | s, .cancelled => !s.isTerminal
  | s, .failed => !s.isTerminal
  | _, _ => false

/-- Modelled from the spec: the error taxonomy of the absent core
(spec section 7). -/
inductive Err
  | invalidTransition
  | concurrentModification
  | alreadyRunning
  | notRunning
  | missingVariable (name : String)
  | stageFailure (reason : String)
  | taskRunning
  | notFound
deriving DecidableEq

/-- Modelled from the spec: task priority enumeration (spec section 3). -/
inductive Priority
  | low
  | medium
  | high
deriving DecidableEq

/-- Modelled from the spec: the current workflow step field of a task
(spec section 3): one of none, brief, plan, execute. -/
inductive Step
  | none
  | brief
  | plan
  | execute
deriving DecidableEq

/-- Modelled from the spec: the Task record of the absent core
(spec section 3): identifier, title, free-text context, priority,
status, current workflow step, documentation-folder path, and the
mapping from stage name to captured log content. -/
structure Task where
  id : Nat
  title : String
  context : String
  priority : Priority
  status : Status
  step : Step
  docsPath : String
  logs : List (String × String)
deriving DecidableEq

/-- Modelled from the spec: TaskStateMachine.transition (spec section
4.1): fails with InvalidTransition when the target is not reachable
from the current status per the legal transition table. -/
def transition (t : Task) (target : Status) : Except Err Task :=
  if legalTransition t.status target then
    .ok { t with status := target }
  else
    .error .invalidTransition

/-- A status history of one task: it starts at the initial status todo
and every consecutive pair follows the legal transition table
(spec section 4.1). -/
def ValidPath (p : List Status) : Prop :=
  p.head? = some Status.todo ∧
  ∀ i : Nat, i + 1 < p.length →
    legalTransition (p.getD i Status.todo) (p.getD (i + 1) Status.todo) = true

/-- Modelled from the spec: the ephemeral WorkflowRun record of the
absent core (spec section 3): process handle is external, so the model
keeps the start time, the accumulated output buffer and the
cancellation flag. -/
structure WorkflowRun where
  startTime : Nat
  buffer : String
  cancelRequested : Bool
deriving DecidableEq

/-- Modelled from the spec: the workspace-local resolved-skill cache of
the absent SkillTemplateResolver (spec sections 3 and 4.2), keyed by
skill name, together with a count of the copy operations performed. -/
structure SkillCache where
  entries : List (String × String)
  copyCount : Nat
deriving DecidableEq

/-- Modelled from the spec: the per-workspace state of the absent
WorkflowOrchestrator (spec sections 3 and 4.4): the task registry, the
at-most-one-per-task WorkflowRun records, the resolved-skill cache and
the next fresh task identifier. -/
structure WsState where
  tasks : List Task
  runs : List (Nat × WorkflowRun)
  skills : SkillCache
  nextId : Nat
deriving DecidableEq

/-- Look a task up by identifier in a registry list. -/
def findTaskIn (tid : Nat) (ts : List Task) : Option Task :=
  ts.find? (fun t => t.id == tid)

/-- Look a task up by identifier in a workspace state. -/
def findTask (tid : Nat) (s : WsState) : Option Task :=
  findTaskIn tid s.tasks

/-- Apply an update to every registry entry carrying the given task
identifier. -/
def updateTask (tid : Nat) (f : Task → Task) (ts : List Task) : List Task :=
  ts.map (fun t => if t.id == tid then f t else t)

/-- Whether a WorkflowRun record exists for the given task
(spec section 3: at most one WorkflowRun may exist per task). -/
def runExists (tid : Nat) (s : WsState) : Bool :=
  s.runs.any (fun r => r.1 == tid)

/-- Modelled from the spec: the per-task documentation folder path
assigned at creation (spec sections 3 and 6); the exact shape is not
fixed by the spec, only that the path is part of the returned record. -/
def docsPathFor (id : Nat) : String :=
  "docs/tasks/task-" ++ toString id ++ "/"

/-- Modelled from the spec: the create-task operation of the absent
core (spec section 6): returns a task record with a freshly assigned
identifier, the given title, context and priority, initial status todo
and a documentation-folder path. -/
def createTask (title context : String) (prio : Priority) (s : WsState) :
    Task × WsState :=
  let t : Task :=
    { id := s.nextId, title := title, context := context, priority := prio,
      status := Status.todo, step := Step.none,
      docsPath := docsPathFor s.nextId, logs := [] }
  (t, { s with tasks := s.tasks ++ [t], nextId := s.nextId + 1 })

/-- A fresh WorkflowRun record, created when a stage starts
(spec section 3). -/
def newRun : WorkflowRun :=
  { startTime := 0, buffer := "", cancelRequested := false }

/-- Modelled from the spec: WorkflowOrchestrator.startWorkflow
(spec section 4.4): fails with AlreadyRunning if a WorkflowRun already
exists for this task; otherwise transitions the task to briefing and
begins the stage sequence, recording the new WorkflowRun. -/
def startWorkflow (tid : Nat) (s : WsState) : Except Err Unit × WsState :=
  if runExists tid s then
    (.error .alreadyRunning, s)
  else
    match findTask tid s with
    | Option.none => (.error .notFound, s)
    | Option.some t =>
      match transition t Status.briefing with
      | .error e => (.error e, s)
      | .ok _ =>
        (.ok (), { s with
          tasks := updateTask tid
            (fun u => { u with status := Status.briefing, step := Step.brief })
            s.tasks,
          runs := (tid, newRun) :: s.runs })

/-- Modelled from the spec: WorkflowOrchestrator.stopWorkflow
(spec section 4.4): fails with NotRunning if no WorkflowRun exists;
otherwise signals the external process to terminate and returns once
the state machine has observably left the in-flight state, which per
spec sections 4.4 and 5 is always the cancelled state; the WorkflowRun
is destroyed when the stage terminates (spec section 3). -/
def stopWorkflow (tid : Nat) (s : WsState) : Except Err Unit × WsState :=
  if runExists tid s then
    match findTask tid s with
    | Option.none => (.error .notFound, s)
    | Option.some t =>
      match transition t Status.cancelled with
      | .error e => (.error e, s)
      | .ok _ =>
        (.ok (), { s with
          tasks := updateTask tid
            (fun u => { u with status := Status.cancelled }) s.tasks,
          runs := s.runs.filter (fun r => r.1 != tid) })
  else
    (.error .notRunning, s)

/-- Modelled from the spec: WorkflowOrchestrator.deleteTask
(spec sections 4.4 and 6): fails with TaskRunning if a WorkflowRun
exists; otherwise removes the task record, an idempotent operation
(deleting an already absent task is not an error). -/
def deleteTask (tid : Nat) (s : WsState) : Except Err Unit × WsState :=
  if runExists tid s then
    (.error .taskRunning, s)
  else
    (.ok (), { s with tasks := s.tasks.filter (fun t => t.id != tid) })

/-- Modelled from the spec: the record returned by
WorkflowOrchestrator.getStatus (spec section 4.4): status, workflow
step, whether a run is active, and the log mapping. -/
structure StatusView where
  status : Status
  workflowStep : Step
  isRunning : Bool
  logs : List (String × String)
deriving DecidableEq

/-- Modelled from the spec: WorkflowOrchestrator.getStatus
(spec section 4.4): a pure read of the task's current state and log
mapping; NotFound for an unknown identifier. -/
def getStatus (tid : Nat) (s : WsState) : Except Err StatusView :=
  match findTask tid s with
  | Option.none => .error .notFound
  | Option.some t =>
    .ok { status := t.status, workflowStep := t.step,
          isRunning := runExists tid s, logs := t.logs }

/-- Modelled from the spec: the workspace-local path at which a
resolved skill is materialized; skill_test.py checks the concrete
location .claude/commands/NAME/SKILL.md inside the workspace root. -/
def skillPathFor (wsRoot skillName : String) : String :=
  wsRoot ++ "/.claude/commands/" ++ skillName ++ "/SKILL.md"

/-- The value returned by resolve: the workspace-local path and the
resolved content found there. -/
structure Resolved where
  path : String
  content : String
deriving DecidableEq

/-- Modelled from the spec: SkillTemplateResolver.resolve
(spec section 4.2): if a cached resolved copy exists for this workspace
and skill, return it; otherwise copy the canonical template into the
workspace's skill cache and return the new path.  The canonical
template set is the read-only content consumed from the excluded layer
(spec section 6), here a function from skill name to template content.
Concurrent calls for the same pair are serialized by the
per-(workspace, skill) exclusion mechanism of spec section 5, so they
behave as consecutive calls of this function. -/
def resolve (canonical : String → String) (wsRoot skillName : String)
    (c : SkillCache) : Resolved × SkillCache :=
  match c.entries.lookup skillName with
  | Option.some content =>
    ({ path := skillPathFor wsRoot skillName, content := content }, c)
  | Option.none =>
    let content := canonical skillName
    ({ path := skillPathFor wsRoot skillName, content := content },
     { entries := (skillName, content) :: c.entries,
       copyCount := c.copyCount + 1 })

/-- Modelled from the spec: one item of an instruction template
(spec sections 3 and 4.2): literal text or a placeholder token such as
TASK_TITLE (written with a leading dollar sign in the skill files
checked by skill_test.py). -/
inductive TItem
  | lit (s : String)
  | hole (name : String)
deriving DecidableEq

/-- A skill template is a sequence of template items. -/
abbrev Template := List TItem

/-- One chunk of hydrated output: a placeholder replaced by its
variable's value, a placeholder left verbatim because no variable of
that name is recognized, or literal text. -/
inductive HChunk
  | substituted (name value : String)
  | verbatim (name : String)
  | literal (s : String)
deriving DecidableEq

/-- Modelled from the spec: the required variables of the Brief and
Plan stages (spec section 4.2): task title, task context, and the path
of the task's documentation folder; skill_test.py checks exactly the
tokens TASK_TITLE, TASK_CONTEXT and TASK_DOCS_PATH. -/
def requiredVars : List String :=
  ["TASK_TITLE", "TASK_CONTEXT", "TASK_DOCS_PATH"]

/-- Modelled from the spec: SkillTemplateResolver.hydrate
(spec section 4.2) on one template item: a recognized placeholder token
is replaced by the corresponding variable's current value and an
unrecognized token is left verbatim, not an error. -/
def hydrateItem (vars : List (String × String)) : TItem → HChunk
  | .lit s => .literal s
  | .hole n =>
    match vars.lookup n with
    | Option.some v => .substituted n v
    | Option.none => .verbatim n

/-- Modelled from the spec: SkillTemplateResolver.hydrate
(spec section 4.2), kept at chunk granularity. -/
def hydrateChunks (tpl : Template) (vars : List (String × String)) :
    List HChunk :=
  tpl.map (hydrateItem vars)

/-- Render one hydrated chunk back to text; a verbatim placeholder
keeps its leading dollar sign. -/
def HChunk.render : HChunk → String
  | .substituted _ v => v
  | .verbatim n => "$" ++ n
  | .literal s => s

/-- Modelled from the spec: SkillTemplateResolver.hydrate
(spec section 4.2): the hydrated content of a template. -/
def hydrate (tpl : Template) (vars : List (String × String)) : String :=
  String.join ((hydrateChunks tpl vars).map HChunk.render)

/-- The required placeholders a hydration left unresolved. -/
def unresolvedRequired (cs : List HChunk) : List String :=
  cs.filterMap (fun c =>
    match c with
    | .verbatim n => if requiredVars.contains n then Option.some n else Option.none
    | _ => Option.none)

/-- The required variables missing from a variable assignment. -/
def missingRequired (vars : List (String × String)) : List String :=
  requiredVars.filter (fun n => (vars.lookup n).isNone)

/-- Modelled from the spec: the terminal outcome of one stage
(spec section 4.3): Success, Failure with a reason, or Cancelled. -/
inductive StageOutcome
  | success
  | failure (reason : String)
  | cancelled
deriving DecidableEq

/-- Modelled from the spec: the observable behavior of the external
agent process during one stage: its exit code, its captured output,
whether it produced the expected output artifact, and whether it was
killed by an explicit stop request.  The process itself is an opaque
external collaborator (spec section 1). -/
structure ProcBehavior where
  exitCode : Nat
  output : String
  artifactProduced : Bool
  killedByStop : Bool
deriving DecidableEq

/-- Modelled from the spec: how a stage's terminal outcome is derived
from the external process (spec section 4.3): Cancelled when killed by
an explicit stop request, Success when the process exited 0 and
produced the expected artifact, otherwise Failure. -/
def outcomeOf (p : ProcBehavior) : StageOutcome :=
  if p.killedByStop then .cancelled
  else if p.exitCode == 0 && p.artifactProduced then .success
  else .failure "non-zero exit, timeout, or missing expected artifact"

/-- The result of StageRunner.run: the outcome or a pre-launch error,
whether the external agent process was launched at all, and the task
with its updated log mapping. -/
structure RunResult where
  outcome : Except Err StageOutcome
  launched : Bool
  task : Task

/-- Modelled from the spec: StageRunner.run (spec section 4.3):
missing required variables abort the stage with MissingVariable before
any process is launched (spec sections 4.2 and 7); otherwise the skill
is hydrated, the agent launched, and regardless of the outcome the full
captured output for the stage is appended to the task's log mapping
under the stage's key before run returns. -/
def StageRunner.run (tpl : Template) (stage : String)
    (vars : List (String × String)) (proc : ProcBehavior) (t : Task) :
    RunResult :=
  match missingRequired vars with
  | n :: _ =>
    { outcome := .error (.missingVariable n), launched := false, task := t }
  | [] =>
    let _hydrated := hydrate tpl vars
    { outcome := .ok (outcomeOf proc), launched := true,
      task := { t with logs := t.logs ++ [(stage, proc.output)] } }

/-- Modelled from the spec: the status the orchestrator drives a task
to when a stage terminates (spec section 4.4): success advances the
pipeline one step, Failure transitions to failed, Cancelled to
cancelled. -/
def nextStatusOnOutcome (cur : Status) (out : StageOutcome) : Status :=
  match out with
  | .success =>
    match cur with
    | .briefing => .planning
    | .planning => .running
    | .running => .review
    | c => c
  | .failure _ => .failed
  | .cancelled => .cancelled

/-- Modelled from the spec: the orchestrator's reaction to a stage
outcome (spec sections 4.3 and 4.4): the task's status advances per
nextStatusOnOutcome, the captured output is appended to the log
mapping, and the WorkflowRun is destroyed unless the pipeline
continues with the next stage. -/
def completeStage (tid : Nat) (out : StageOutcome) (stage output : String)
    (s : WsState) : WsState :=
  match findTask tid s with
  | Option.none => s
  | Option.some t =>
    if t.status.inFlight then
      { s with
        tasks := updateTask tid
          (fun u => { u with status := nextStatusOnOutcome u.status out,
                             logs := u.logs ++ [(stage, output)] }) s.tasks,
        runs := if (nextStatusOnOutcome t.status out).inFlight then s.runs
                else s.runs.filter (fun r => r.1 != tid) }
    else s

/-- Modelled from the spec: the global state of the absent
WorkflowOrchestrator (spec sections 3 and 9): one task registry per
workspace, keyed by workspace name, plus the active workspace chosen
through the workspace-switch operation of spec section 6. -/
structure OrchState where
  workspaces : List (String × WsState)
  active : String
deriving DecidableEq

/-- Apply an update to the state of one named workspace, leaving every
other workspace entry untouched. -/
def updateWs (w : String) (f : WsState → WsState) (g : OrchState) :
    OrchState :=
  { g with workspaces :=
      g.workspaces.map (fun p => if p.1 == w then (p.1, f p.2) else p) }

/-- Modelled from the spec: the operations of the core's mutation
surface (spec section 6), each addressed to one workspace, plus the
workspace-switch operation consumed from the excluded layer. -/
inductive Op
  | create (w title context : String) (prio : Priority)
  | start (w : String) (tid : Nat)
  | stop (w : String) (tid : Nat)
  | delete (w : String) (tid : Nat)
  | resolveSkill (w wsRoot name : String)
  | complete (w : String) (tid : Nat) (out : StageOutcome)
      (stage output : String)
  | switchTo (w : String)
deriving DecidableEq

/-- The workspace an operation is addressed to; switching the active
workspace touches no workspace's contents. -/
def Op.target : Op → Option String
  | .create w _ _ _ => Option.some w
  | .start w _ => Option.some w
  | .stop w _ => Option.some w
  | .delete w _ => Option.some w
  | .resolveSkill w _ _ => Option.some w
  | .complete w _ _ _ _ => Option.some w
  | .switchTo _ => Option.none

/-- Modelled from the spec: the effect of each operation on the global
orchestrator state (spec sections 4.4 and 6): every operation acts on
the registry and skill cache of its own workspace only. -/
def applyOp (canonical : String → String) (op : Op) (g : OrchState) :
    OrchState :=
  match op with
  | .create w title ctx prio =>
    updateWs w (fun s => (createTask title ctx prio s).2) g
  | .start w tid => updateWs w (fun s => (startWorkflow tid s).2) g
  | .stop w tid => updateWs w (fun s => (stopWorkflow tid s).2) g
  | .delete w tid => updateWs w (fun s => (deleteTask tid s).2) g
  | .resolveSkill w wsRoot name =>
    updateWs w (fun s =>
      { s with skills := (resolve canonical wsRoot name s.skills).2 }) g
  | .complete w tid out stage output =>
    updateWs w (fun s => completeStage tid out stage output s) g
  | .switchTo w => { g with active := w }

/-- The tasks visible through one workspace's board snapshot and task
registry (spec sections 3 and 6). -/
def visibleTasks (w : String) (g : OrchState) : List Task :=
  match g.workspaces.lookup w with
  | Option.some s => s.tasks
  | Option.none => []

/-- The resolved skills visible through one workspace's skill cache
(spec sections 3 and 4.2). -/
def visibleSkills (w : String) (g : OrchState) : List (String × String) :=
  match g.workspaces.lookup w with
  | Option.some s => s.skills.entries
  | Option.none => []

/-- The four kanban display columns of the board UI, checked by
ui_test.py TC-03 and test_formic.py: Todo, Running, Review, Done. -/
inductive Column
  | todoCol
  | runningCol
  | reviewCol
  | doneCol
deriving DecidableEq, Fintype

/-- The fixed left-to-right order of the board columns
(ui_test.py TC-03). -/
def boardColumns : List Column :=
  [Column.todoCol, Column.runningCol, Column.reviewCol, Column.doneCol]

/-- Modelled from the spec: the projection of the eight task statuses
onto the four display columns consumed by the excluded UI
(ui_test.py TC-08: briefing, planning and running all map to the
Running column; spec section 9 keeps the status enumeration the single
source of truth).  The spec does not pin the column of failed and
cancelled tasks; the model shows them in the Todo column, from which
spec section 4.1 says they may be manually reset. -/
def columnOf : Status → Column
  | .todo => .todoCol
  | .briefing => .runningCol
  | .planning => .runningCol
  | .running => .runningCol
  | .review => .reviewCol
  | .done => .doneCol
  | .failed => .todoCol
  | .cancelled => .todoCol

/-- The tasks a board snapshot places in one display column. -/
def columnTasks (ts : List Task) (c : Column) : List Task :=
  ts.filter (fun t => decide (columnOf t.status = c))

/-- A concrete task used by the witnesses: in-flight in the planning
status. -/
def sampleTask : Task :=
  { id := 1, title := "T1", context := "C1", priority := Priority.medium,
    status := Status.planning, step := Step.plan,
    docsPath := docsPathFor 1, logs := [("brief", "brief output")] }

/-- A concrete workspace state used by the witnesses: one task with an
active WorkflowRun. -/
def sampleWs : WsState :=
  { tasks := [sampleTask], runs := [(1, newRun)],
    skills := { entries := [], copyCount := 0 }, nextId := 2 }

/-- A concrete empty workspace state used by the witnesses. -/
def emptyWs : WsState :=
  { tasks := [], runs := [],
    skills := { entries := [], copyCount := 0 }, nextId := 0 }

/-- A concrete template used by the witnesses. -/
def sampleTemplate : Template :=
  [TItem.lit "# Brief for ", TItem.hole "TASK_TITLE",
   TItem.lit " in ", TItem.hole "TASK_DOCS_PATH",
   TItem.lit " about ", TItem.hole "TASK_CONTEXT",
   TItem.hole "FUTURE_VAR"]

/-- A concrete complete variable assignment used by the witnesses. -/
def sampleVars : List (String × String) :=
  [("TASK_TITLE", "T1"), ("TASK_CONTEXT", "C1"),
   ("TASK_DOCS_PATH", "docs/tasks/task-1/")]

/-- A concrete incomplete variable assignment used by the witnesses:
the task context is missing. -/
def sampleVarsMissing : List (String × String) :=
  [("TASK_TITLE", "T1"), ("TASK_DOCS_PATH", "docs/tasks/task-1/")]

/-- A concrete failing external process used by the witnesses. -/
def sampleProcFailed : ProcBehavior :=
  { exitCode := 1, output := "boom", artifactProduced := false,
    killedByStop := false }

/-- A concrete two-workspace orchestrator state used by the witnesses. -/
def sampleOrch : OrchState :=
  { workspaces := [("example", sampleWs), ("other", emptyWs)],
    active := "example" }

/-- A concrete stage-runner result task used by the witnesses: the
execute stage failed and its output was captured. -/
def sampleRunTask : Task :=
  (StageRunner.run sampleTemplate "execute" sampleVars sampleProcFailed
    sampleTask).task

/-- A concrete workspace state holding the stage-runner result task,
used by the witnesses. -/
def sampleWsAfterRun : WsState :=
  { tasks := [sampleRunTask], runs := [],
    skills := { entries := [], copyCount := 0 }, nextId := 2 }

/-- The only status from which the table allows a step to running is
planning. -/
theorem legalTransition_into_running (s : Status)
    (h : legalTransition s Status.running = true) : s = Status.planning := by
  cases s <;> revert h <;> decide

/-- The only status from which the table allows a step to planning is
briefing. -/
theorem legalTransition_into_planning (s : Status)
    (h : legalTransition s Status.planning = true) : s = Status.briefing := by
  cases s <;> revert h <;> decide

/-- On a valid status history the first entry is todo. -/
theorem validPath_getD_zero (p : List Status) (h : ValidPath p) :
    p ≠ [] → p.getD 0 Status.todo = Status.todo := by
  intro hne
  obtain ⟨hhead, _⟩ := h
  cases p with
  | nil => exact absurd rfl hne
  | cons a l =>
    simp [List.head?] at hhead
    simpa using hhead

/-- Any valid status history that reaches running does so from
planning, which itself was entered from briefing: the two predecessors
of each occurrence of running are briefing then planning. -/
theorem validPath_running_after_brief_plan (p : List Status) (k : Nat)
    (hval : ValidPath p) (hk : k < p.length)
    (hrun : p.getD k Status.todo = Status.running) :
    2 ≤ k ∧ p.getD (k - 1) Status.todo = Status.planning ∧
      p.getD (k - 2) Status.todo = Status.briefing := by
  have hne : p ≠ [] := by
    intro h0
    rw [h0] at hk
    simp at hk
  have h0 : p.getD 0 Status.todo = Status.todo := validPath_getD_zero p hval hne
  obtain ⟨_, hchain⟩ := hval
  have hk0 : k ≠ 0 := by
    intro h
    rw [h, h0] at hrun
    exact absurd hrun (by decide)
  have hstep1 : legalTransition (p.getD (k - 1) Status.todo)
      (p.getD (k - 1 + 1) Status.todo) = true := hchain (k - 1) (by omega)
  have hkk : k - 1 + 1 = k := by omega
  rw [hkk, hrun] at hstep1
  have hplan : p.getD (k - 1) Status.todo = Status.planning :=
    legalTransition_into_running _ hstep1
  have hk1 : k - 1 ≠ 0 := by
    intro h
    rw [h, h0] at hplan
    exact absurd hplan (by decide)
  have hstep2 : legalTransition (p.getD (k - 2) Status.todo)
      (p.getD (k - 2 + 1) Status.todo) = true := hchain (k - 2) (by omega)
  have hkk2 : k - 2 + 1 = k - 1 := by omega
  rw [hkk2, hplan] at hstep2
  exact ⟨by omega, hplan, legalTransition_into_planning _ hstep2⟩

/-- From every in-flight status the table allows a step to cancelled. -/
theorem inFlight_legal_cancelled (st : Status) (h : st.inFlight = true) :
    legalTransition st Status.cancelled = true := by
  cases st <;> revert h <;> decide

/-- Looking a task up after an identifier-preserving update returns the
updated task. -/
theorem findTaskIn_updateTask (tid : Nat) (f : Task → Task)
    (ts : List Task) (hf : ∀ t, (f t).id = t.id) :
    findTaskIn tid (updateTask tid f ts) = (findTaskIn tid ts).map f := by
  induction ts with
  | nil => rfl
  | cons t rest ih =>
    by_cases h : (t.id == tid) = true
    · simp [findTaskIn, updateTask, List.find?, h, hf]
    · simp only [findTaskIn, updateTask, List.map_cons, h, if_false,
        Bool.false_eq_true, List.find?] at ih ⊢
      exact ih

/-- After removing the run records of one task, no run record for that
task remains. -/
theorem runExists_filter_self (tid : Nat) (l : List (Nat × WorkflowRun)) :
    (l.filter (fun r => r.1 != tid)).any (fun r => r.1 == tid) = false := by
  rw [List.any_eq_false]
  intro x hx
  have hk := (List.mem_filter.mp hx).2
  simp only [bne_iff_ne, ne_eq] at hk
  simp [hk]

/-- Updating the entry of one workspace key leaves the lookup of every
other key unchanged. -/
theorem lookup_update_ne (w w1 : String) (f : WsState → WsState)
    (l : List (String × WsState)) (h : w ≠ w1) :
    (l.map (fun p => if p.1 == w1 then (p.1, f p.2) else p)).lookup w =
      l.lookup w := by
  induction l with
  | nil => rfl
  | cons p rest ih =>
    by_cases hp : (p.1 == w1) = true
    · have hw : (w == p.1) = false := by
        rw [beq_iff_eq] at hp
        rw [beq_eq_false_iff_ne, hp]
        exact h
      rw [List.map_cons, if_pos hp]
      simp only [List.lookup, hw]
      exact ih
    · rw [List.map_cons, if_neg hp]
      simp only [List.lookup]
      rw [ih]

/-- The tasks and skills visible in one workspace are unchanged by an
update addressed to a different workspace. -/
theorem visible_updateWs_ne (w w1 : String) (f : WsState → WsState)
    (g : OrchState) (h : w ≠ w1) :
    visibleTasks w (updateWs w1 f g) = visibleTasks w g ∧
    visibleSkills w (updateWs w1 f g) = visibleSkills w g := by
  have hl := lookup_update_ne w w1 f g.workspaces h
  constructor
  · simp only [visibleTasks, updateWs]
    rw [hl]
  · simp only [visibleSkills, updateWs]
    rw [hl]

/-- The documentation-folder path assigned at creation is non-empty. -/
theorem docsPathFor_ne_empty (n : Nat) : docsPathFor n ≠ "" := by
  intro h
  have h1 : (docsPathFor n).length = 0 := by rw [h]; rfl
  rw [docsPathFor, String.length_append, String.length_append] at h1
  have h2 : ("docs/tasks/task-" : String).length = 16 := rfl
  omega

/-- C1: For every task, the status only ever changes along the legal
transition table: the state machine's transition operation only
performs table moves, the orchestrator's reaction to a stage outcome
only performs table moves from in-flight statuses, and on every status
history following the table a task reaches running only after having
first been in briefing and then planning. -/
theorem claim_status_transitions_legal :
    (∀ (t : Task) (target : Status) (t' : Task),
        transition t target = Except.ok t' →
        legalTransition t.status t'.status = true) ∧
    (∀ (st : Status) (out : StageOutcome), st.inFlight = true →
        legalTransition st (nextStatusOnOutcome st out) = true) ∧
    (∀ (p : List Status) (k : Nat), ValidPath p → k < p.length →
        p.getD k Status.todo = Status.running →
        2 ≤ k ∧ p.getD (k - 1) Status.todo = Status.planning ∧
          p.getD (k - 2) Status.todo = Status.briefing) := by
  refine ⟨?_, ?_, ?_⟩
  · intro t target t' h
    unfold transition at h
    split at h
    · rename_i hl
      injection h with h2
      subst h2
      simpa using hl
    · cases h
  · intro st out h
    cases out <;> cases st <;>
      simp_all [nextStatusOnOutcome, legalTransition, Status.inFlight,
        Status.isTerminal]
  · intro p k hv hk hr
    exact validPath_running_after_brief_plan p k hv hk hr

/-- Witness for C1: on the concrete pipeline history todo, briefing,
planning, running, the occurrence of running at index 3 is preceded by
briefing at index 1 and planning at index 2. -/
theorem claim_status_transitions_legal_witness :
    2 ≤ 3 ∧
    ([Status.todo, Status.briefing, Status.planning,
        Status.running].getD 2 Status.todo = Status.planning) ∧
    ([Status.todo, Status.briefing, Status.planning,
        Status.running].getD 1 Status.todo = Status.briefing) :=
  claim_status_transitions_legal.2.2
    [Status.todo, Status.briefing, Status.planning, Status.running] 3
    ⟨rfl, by
      intro i hi
      simp only [List.length_cons, List.length_nil] at hi
      have h3 : i < 3 := by omega
      interval_cases i <;> decide⟩
    (by decide) (by decide)

/-- C2: stopWorkflow fails with NotRunning when no WorkflowRun exists
for the task, and on a task with an active run and an in-flight status
it succeeds, destroys the run, and leaves the task cancelled and never
failed, whichever in-flight status the stop found the task in. -/
theorem claim_stopWorkflow_cancels :
    ∀ (tid : Nat) (s : WsState),
      (runExists tid s = false →
        stopWorkflow tid s = (Except.error Err.notRunning, s)) ∧
      (∀ t : Task, runExists tid s = true →
        findTask tid s = Option.some t → t.status.inFlight = true →
        (stopWorkflow tid s).1 = Except.ok () ∧
        runExists tid (stopWorkflow tid s).2 = false ∧
        findTask tid (stopWorkflow tid s).2 =
          Option.some { t with status := Status.cancelled } ∧
        ({ t with status := Status.cancelled } : Task).status ≠
          Status.failed) := by
  intro tid s
  constructor
  · intro h
    simp [stopWorkflow, h]
  · intro t hrun hfind hin
    have hleg : legalTransition t.status Status.cancelled = true :=
      inFlight_legal_cancelled t.status hin
    have hs : stopWorkflow tid s =
        (Except.ok (), { s with
          tasks := updateTask tid
            (fun u => { u with status := Status.cancelled }) s.tasks,
          runs := s.runs.filter (fun r => r.1 != tid) }) := by
      simp [stopWorkflow, hrun, hfind, transition, hleg]
    refine ⟨by rw [hs], ?_, ?_, by simp⟩
    · rw [hs]
      simp only [runExists]
      exact runExists_filter_self tid s.runs
    · rw [hs]
      simp only [findTask] at hfind ⊢
      rw [findTaskIn_updateTask tid
        (fun u => { u with status := Status.cancelled }) s.tasks
        (fun u => rfl), hfind]
      rfl

/-- Witness for C2: stopping the concrete workspace's planning task
with an active run succeeds and leaves it cancelled. -/
theorem claim_stopWorkflow_cancels_witness :
    (stopWorkflow 1 sampleWs).1 = Except.ok () ∧
    runExists 1 (stopWorkflow 1 sampleWs).2 = false ∧
    findTask 1 (stopWorkflow 1 sampleWs).2 =
      Option.some { sampleTask with status := Status.cancelled } ∧
    ({ sampleTask with status := Status.cancelled } : Task).status ≠
      Status.failed :=
  (claim_stopWorkflow_cancels 1 sampleWs).2 sampleTask
    (by decide) (by decide) (by decide)

/-- C3: startWorkflow on a task that already has a WorkflowRun fails
with AlreadyRunning and returns the workspace state entirely unchanged:
the task registry, the in-flight WorkflowRun records and the skill
cache are exactly those of the rejected call's input. -/
theorem claim_startWorkflow_already_running :
    ∀ (tid : Nat) (s : WsState), runExists tid s = true →
      startWorkflow tid s = (Except.error Err.alreadyRunning, s) := by
  intro tid s h
  simp [startWorkflow, h]

/-- Witness for C3: starting the concrete workspace's task 1, which
already has an active run, is rejected without any state change. -/
theorem claim_startWorkflow_already_running_witness :
    startWorkflow 1 sampleWs = (Except.error Err.alreadyRunning, sampleWs) :=
  claim_startWorkflow_already_running 1 sampleWs (by decide)

/-- C4: resolve is idempotent: a second resolve of the same workspace
and skill returns the same path with byte-identical resolved content,
changes nothing in the cache (the cached resolved copy is returned
as-is), and the two calls together perform at most one underlying copy
of the canonical template.  Concurrent calls are serialized by the
per-(workspace, skill) exclusion mechanism of spec section 5, so they
behave as the consecutive calls treated here. -/
theorem claim_resolve_idempotent :
    ∀ (canonical : String → String) (wsRoot skillName : String)
      (c : SkillCache),
      (resolve canonical wsRoot skillName
          (resolve canonical wsRoot skillName c).2).1 =
        (resolve canonical wsRoot skillName c).1 ∧
      (resolve canonical wsRoot skillName
          (resolve canonical wsRoot skillName c).2).2 =
        (resolve canonical wsRoot skillName c).2 ∧
      ((resolve canonical wsRoot skillName c).2).copyCount ≤
        c.copyCount + 1 := by
  intro canonical wsRoot skillName c
  rcases hl : c.entries.lookup skillName with _ | v
  · refine ⟨?_, ?_, ?_⟩ <;>
      simp [resolve, hl, List.lookup]
  · refine ⟨?_, ?_, ?_⟩ <;>
      simp [resolve, hl]

/-- C5: hydrate replaces every recognized placeholder with the
corresponding variable's value and leaves unrecognized placeholders
verbatim without error; with every required variable supplied the
output has zero unresolved required placeholders; and a missing
required variable makes the stage fail with MissingVariable with no
agent process launched. -/
theorem claim_hydrate_spec :
    (∀ (tpl : Template) (vars : List (String × String)) (n v : String),
        vars.lookup n = Option.some v → TItem.hole n ∈ tpl →
        HChunk.substituted n v ∈ hydrateChunks tpl vars ∧
        HChunk.verbatim n ∉ hydrateChunks tpl vars) ∧
    (∀ (tpl : Template) (vars : List (String × String)) (n : String),
        vars.lookup n = Option.none → TItem.hole n ∈ tpl →
        HChunk.verbatim n ∈ hydrateChunks tpl vars) ∧
    (∀ (tpl : Template) (vars : List (String × String)),
        (∀ n, n ∈ requiredVars → (vars.lookup n).isSome = true) →
        unresolvedRequired (hydrateChunks tpl vars) = []) ∧
    (∀ (tpl : Template) (stage : String) (vars : List (String × String))
        (proc : ProcBehavior) (t : Task),
        missingRequired vars ≠ [] →
        (StageRunner.run tpl stage vars proc t).launched = false ∧
        ∃ n, n ∈ missingRequired vars ∧
          (StageRunner.run tpl stage vars proc t).outcome =
            Except.error (Err.missingVariable n)) := by
  refine ⟨?_, ?_, ?_, ?_⟩
  · intro tpl vars n v hlook ht
    constructor
    · exact List.mem_map.mpr ⟨TItem.hole n, ht, by simp [hydrateItem, hlook]⟩
    · intro hc
      obtain ⟨item, hmem, heq⟩ := List.mem_map.mp hc
      cases item with
      | lit s => simp [hydrateItem] at heq
      | hole m =>
        rcases hm : vars.lookup m with _ | w
        · simp only [hydrateItem, hm, HChunk.verbatim.injEq] at heq
          rw [heq] at hm
          rw [hm] at hlook
          cases hlook
        · simp [hydrateItem, hm] at heq
  · intro tpl vars n hlook ht
    exact List.mem_map.mpr ⟨TItem.hole n, ht, by simp [hydrateItem, hlook]⟩
  · intro tpl vars hall
    simp only [unresolvedRequired]
    rw [List.filterMap_eq_nil_iff]
    intro c hc
    obtain ⟨item, hmem, heq⟩ := List.mem_map.mp hc
    cases item with
    | lit s =>
      rw [← heq]
      simp [hydrateItem]
    | hole m =>
      rcases hm : vars.lookup m with _ | w
      · simp only [hydrateItem, hm] at heq
        rw [← heq]
        by_cases hreq : m ∈ requiredVars
        · have := hall m hreq
          rw [hm] at this
          cases this
        · simp [hreq]
      · simp only [hydrateItem, hm] at heq
        rw [← heq]
  · intro tpl stage vars proc t hmiss
    rcases hX : missingRequired vars with _ | ⟨n, rest⟩
    · exact absurd hX hmiss
    · refine ⟨?_, n, ?_, ?_⟩
      · simp [StageRunner.run, hX]
      · exact List.mem_cons_self n rest
      · simp [StageRunner.run, hX]

/-- Witness for C5: the concrete complete variable assignment leaves
zero unresolved required placeholders in the concrete template, and the
assignment missing the task context aborts the stage with no process
launched. -/
theorem claim_hydrate_spec_witness :
    unresolvedRequired (hydrateChunks sampleTemplate sampleVars) = [] ∧
    (StageRunner.run sampleTemplate "brief" sampleVarsMissing
      sampleProcFailed sampleTask).launched = false :=
  ⟨claim_hydrate_spec.2.2.1 sampleTemplate sampleVars (by decide),
   (claim_hydrate_spec.2.2.2 sampleTemplate "brief" sampleVarsMissing
     sampleProcFailed sampleTask (by decide)).1⟩

/-- C6: createTask returns a task record with a freshly assigned
identifier distinct from every existing task's, the given title,
context and priority, initial status todo and a non-empty
documentation-folder path; the new task is registered and identifier
freshness is preserved. -/
theorem claim_createTask_spec :
    ∀ (title ctx : String) (prio : Priority) (s : WsState),
      (∀ t, t ∈ s.tasks → t.id < s.nextId) →
      ((createTask title ctx prio s).1.title = title ∧
       (createTask title ctx prio s).1.context = ctx ∧
       (createTask title ctx prio s).1.priority = prio ∧
       (createTask title ctx prio s).1.status = Status.todo ∧
       (createTask title ctx prio s).1.docsPath ≠ "" ∧
       (∀ t, t ∈ s.tasks → t.id ≠ (createTask title ctx prio s).1.id) ∧
       (createTask title ctx prio s).1 ∈ (createTask title ctx prio s).2.tasks ∧
       (∀ t, t ∈ (createTask title ctx prio s).2.tasks →
          t.id < (createTask title ctx prio s).2.nextId)) := by
  intro title ctx prio s hfresh
  refine ⟨rfl, rfl, rfl, rfl, docsPathFor_ne_empty s.nextId, ?_, ?_, ?_⟩
  · intro t ht
    have := hfresh t ht
    simp only [createTask]
    omega
  · simp [createTask]
  · intro t ht
    simp only [createTask, List.mem_append, List.mem_singleton] at ht
    rcases ht with ht | ht
    · have := hfresh t ht
      simp only [createTask]
      omega
    · rw [ht]
      simp [createTask]

/-- Witness for C6: creating a task in the concrete empty workspace
yields the given title, status todo and a non-empty documentation
path. -/
theorem claim_createTask_spec_witness :
    (createTask "T1" "C1" Priority.medium emptyWs).1.title = "T1" ∧
    (createTask "T1" "C1" Priority.medium emptyWs).1.status = Status.todo ∧
    (createTask "T1" "C1" Priority.medium emptyWs).1.docsPath ≠ "" :=
  have h := claim_createTask_spec "T1" "C1" Priority.medium emptyWs
    (by intro t ht; simp [emptyWs] at ht)
  ⟨h.1, h.2.2.2.1, h.2.2.2.2.1⟩

/-- C7: deleteTask on a task with an active WorkflowRun fails with
TaskRunning and leaves the workspace state, hence the task and its run,
entirely unchanged; otherwise it succeeds, removes exactly the records
carrying that identifier, and is idempotent: deleting again succeeds
without change. -/
theorem claim_deleteTask_spec :
    ∀ (tid : Nat) (s : WsState),
      (runExists tid s = true →
        deleteTask tid s = (Except.error Err.taskRunning, s)) ∧
      (runExists tid s = false →
        (deleteTask tid s).1 = Except.ok () ∧
        (∀ t : Task, t ∈ (deleteTask tid s).2.tasks ↔
          (t ∈ s.tasks ∧ t.id ≠ tid)) ∧
        deleteTask tid (deleteTask tid s).2 =
          (Except.ok (), (deleteTask tid s).2)) := by
  intro tid s
  constructor
  · intro h
    simp [deleteTask, h]
  · intro h
    have hs : deleteTask tid s =
        (Except.ok (), { s with
          tasks := s.tasks.filter (fun t => t.id != tid) }) := by
      simp [deleteTask, h]
    refine ⟨by rw [hs], ?_, ?_⟩
    · intro t
      rw [hs]
      simp [List.mem_filter]
    · rw [hs]
      have h2 : runExists tid { s with
          tasks := s.tasks.filter (fun t => t.id != tid) } = false := h
      have h3 : (s.tasks.filter (fun t => t.id != tid)).filter
          (fun t => t.id != tid) =
          s.tasks.filter (fun t => t.id != tid) :=
        List.filter_eq_self.mpr (fun a ha => (List.mem_filter.mp ha).2)
      simp only [deleteTask, h2, Bool.false_eq_true, if_false, h3]

/-- Witness for C7: deleting the concrete running task is rejected with
TaskRunning and no state change; deleting from the concrete empty
workspace succeeds. -/
theorem claim_deleteTask_spec_witness :
    deleteTask 1 sampleWs = (Except.error Err.taskRunning, sampleWs) ∧
    (deleteTask 1 emptyWs).1 = Except.ok () :=
  ⟨(claim_deleteTask_spec 1 sampleWs).1 (by decide),
   ((claim_deleteTask_spec 1 emptyWs).2 (by decide)).1⟩

/-- C8: for every external process behavior, hence for Success, Failure
and Cancelled outcomes alike, StageRunner.run appends the full captured
output to the task's log mapping under the stage's key before it
returns, and the task's status, workflow step and captured logs remain
readable through getStatus afterwards. -/
theorem claim_stage_logs_persist :
    ∀ (tpl : Template) (stage : String) (vars : List (String × String))
      (proc : ProcBehavior) (t : Task) (tid : Nat) (s : WsState),
      missingRequired vars = [] →
      findTask tid s =
        Option.some (StageRunner.run tpl stage vars proc t).task →
      ((stage, proc.output) ∈
         (StageRunner.run tpl stage vars proc t).task.logs ∧
       (StageRunner.run tpl stage vars proc t).outcome =
         Except.ok (outcomeOf proc) ∧
       ∃ v : StatusView, getStatus tid s = Except.ok v ∧
         v.status = (StageRunner.run tpl stage vars proc t).task.status ∧
         v.workflowStep = (StageRunner.run tpl stage vars proc t).task.step ∧
         (stage, proc.output) ∈ v.logs) := by
  intro tpl stage vars proc t tid s hm hfind
  have hrun : StageRunner.run tpl stage vars proc t =
      { outcome := Except.ok (outcomeOf proc), launched := true,
        task := { t with logs := t.logs ++ [(stage, proc.output)] } } := by
    simp [StageRunner.run, hm]
  have hmem : (stage, proc.output) ∈
      (StageRunner.run tpl stage vars proc t).task.logs := by
    rw [hrun]
    simp
  refine ⟨hmem, by rw [hrun], ?_⟩
  refine ⟨{ status := (StageRunner.run tpl stage vars proc t).task.status,
            workflowStep := (StageRunner.run tpl stage vars proc t).task.step,
            isRunning := runExists tid s,
            logs := (StageRunner.run tpl stage vars proc t).task.logs },
    ?_, rfl, rfl, hmem⟩
  simp [getStatus, hfind]

/-- Witness for C8: the failing execute stage of the concrete task
leaves its captured output readable in the task's log mapping. -/
theorem claim_stage_logs_persist_witness :
    ("execute", sampleProcFailed.output) ∈
      (StageRunner.run sampleTemplate "execute" sampleVars sampleProcFailed
        sampleTask).task.logs :=
  (claim_stage_logs_persist sampleTemplate "execute" sampleVars
    sampleProcFailed sampleTask 1 sampleWsAfterRun
    (by decide) (by decide)).1

/-- C9: workspaces are isolated: every operation of the modelled
mutation surface touches only its own target workspace, so the tasks
and resolved skills visible through any other workspace's board
snapshot, task registry and skill cache are unchanged; the
workspace-switch operation changes no workspace's visible contents at
all. -/
theorem claim_workspace_isolation :
    ∀ (canonical : String → String) (op : Op) (g : OrchState) (w : String),
      Op.target op ≠ Option.some w →
      visibleTasks w (applyOp canonical op g) = visibleTasks w g ∧
      visibleSkills w (applyOp canonical op g) = visibleSkills w g := by
  intro canonical op g w h
  cases op with
  | switchTo w1 => exact ⟨rfl, rfl⟩
  | create w1 title ctx prio =>
    simp only [Op.target, ne_eq, Option.some.injEq] at h
    exact visible_updateWs_ne w w1 _ g (Ne.symm h)
  | start w1 tid =>
    simp only [Op.target, ne_eq, Option.some.injEq] at h
    exact visible_updateWs_ne w w1 _ g (Ne.symm h)
  | stop w1 tid =>
    simp only [Op.target, ne_eq, Option.some.injEq] at h
    exact visible_updateWs_ne w w1 _ g (Ne.symm h)
  | delete w1 tid =>
    simp only [Op.target, ne_eq, Option.some.injEq] at h
    exact visible_updateWs_ne w w1 _ g (Ne.symm h)
  | resolveSkill w1 wsRoot name =>
    simp only [Op.target, ne_eq, Option.some.injEq] at h
    exact visible_updateWs_ne w w1 _ g (Ne.symm h)
  | complete w1 tid out stage output =>
    simp only [Op.target, ne_eq, Option.some.injEq] at h
    exact visible_updateWs_ne w w1 _ g (Ne.symm h)

/-- Witness for C9: creating a task in the example workspace of the
concrete two-workspace state leaves the other workspace's visible tasks
and skills unchanged. -/
theorem claim_workspace_isolation_witness :
    visibleTasks "other"
        (applyOp (fun _ => "tpl")
          (Op.create "example" "T2" "C2" Priority.low) sampleOrch) =
      visibleTasks "other" sampleOrch ∧
    visibleSkills "other"
        (applyOp (fun _ => "tpl")
          (Op.create "example" "T2" "C2" Priority.low) sampleOrch) =
      visibleSkills "other" sampleOrch :=
  claim_workspace_isolation (fun _ => "tpl")
    (Op.create "example" "T2" "C2" Priority.low) sampleOrch "other"
    (by decide)

/-- C10: the board projects the eight task statuses onto exactly the
four display columns Todo, Running, Review, Done in that fixed order;
the three in-flight statuses briefing, planning and running all map to
the Running column; the projection is onto all four columns; and every
task appears in exactly the one column determined solely by its
status. -/
theorem claim_board_columns :
    boardColumns =
      [Column.todoCol, Column.runningCol, Column.reviewCol,
        Column.doneCol] ∧
    columnOf Status.todo = Column.todoCol ∧
    columnOf Status.briefing = Column.runningCol ∧
    columnOf Status.planning = Column.runningCol ∧
    columnOf Status.running = Column.runningCol ∧
    columnOf Status.review = Column.reviewCol ∧
    columnOf Status.done = Column.doneCol ∧
    (∀ st : Status, columnOf st ∈ boardColumns) ∧
    (∀ c : Column, ∃ st : Status, columnOf st = c) ∧
    (∀ (ts : List Task) (t : Task) (c : Column),
      t ∈ columnTasks ts c ↔ (t ∈ ts ∧ columnOf t.status = c)) := by
  refine ⟨rfl, rfl, rfl, rfl, rfl, rfl, rfl, by decide, by decide, ?_⟩
  intro ts t c
  simp [columnTasks, List.mem_filter]

/-- Witness for C10: the concrete planning task appears in the Running
column of a one-task board, by its status alone. -/
theorem claim_board_columns_witness :
    sampleTask ∈ columnTasks [sampleTask] Column.runningCol ↔
      (sampleTask ∈ [sampleTask] ∧
        columnOf sampleTask.status = Column.runningCol) :=
  claim_board_columns.2.2.2.2.2.2.2.2.2 [sampleTask] sampleTask
    Column.runningCol

end Formic
